import Mathlib

/-!
Shallow embedding of the powerwall_prometheus_exporter repository
(Go sources: package powerwall custom JSON codecs and enumerations,
package model snapshot projection, package view Prometheus counter
updates, package controller poll engine).

Modelling conventions:
  * Go `float64` meter values are modelled exactly over `ℚ`; the
    claims under study concern the sign/threshold logic of the
    counter-delta computation, not binary rounding.
  * Go `time.Duration`/`time.Time` are modelled as `Int` nanosecond
    counts / `Int` Unix seconds.  Go `int64` arithmetic wraps; the
    wrapping is made explicit with `i64add`/`i64mul`.
  * Go regular expressions used by the sources are embedded as
    executable matchers that follow the submatch/priority semantics
    of `regexp.FindStringSubmatch` (leftmost start, operator
    priority: lazy `+?` prefers fewer characters, `?` prefers
    presence, `.` matches any character except a newline).
  * Side effects on Prometheus instruments and on the glog logger
    are reified as lists of `UpdateEvent` values; the mutable
    `priorCumulative` map is an explicit association list threaded
    through the functions.
-/

namespace Pw

/-- Model of Go `%q` formatting as used in the error messages of the
sources (none of the strings of interest need escape sequences). -/
def goQuote (s : String) : String := "\"" ++ s ++ "\""

/-- Digits-to-number accumulator used by the `strconv.ParseInt` model. -/
def digitsToNat (l : List Char) : Nat :=
  l.foldl (fun a c => a * 10 + (c.toNat - 48)) 0

/-- Model of Go `strconv.ParseInt(s, 10, 64)`: optional sign, at least
one decimal digit, and a 64-bit signed range check. -/
def parseInt64 (s : String) : Except String Int :=
  let split : Bool × List Char :=
    match s.data with
    | '+' :: rest => (false, rest)
    | '-' :: rest => (true, rest)
    | rest => (false, rest)
  let neg := split.1
  let ds := split.2
  if ds.isEmpty then
    .error ("strconv.ParseInt: parsing " ++ goQuote s ++ ": invalid syntax")
  else if ¬ (ds.all Char.isDigit) then
    .error ("strconv.ParseInt: parsing " ++ goQuote s ++ ": invalid syntax")
  else
    let n : Int := (digitsToNat ds : Nat)
    let v : Int := if neg then -n else n
    if v < -(2 ^ 63) ∨ 2 ^ 63 - 1 < v then
      .error ("strconv.ParseInt: parsing " ++ goQuote s ++ ": value out of range")
    else
      .ok v

/-- Two's-complement wraparound of Go `int64` arithmetic. -/
def wrap64 (x : Int) : Int := (x + 2 ^ 63) % 2 ^ 64 - 2 ^ 63

/-- Go `int64` addition (wraps on overflow). -/
def i64add (a b : Int) : Int := wrap64 (a + b)

/-- Go `int64` multiplication (wraps on overflow). -/
def i64mul (a b : Int) : Int := wrap64 (a * b)

/-! ## Enumerations (package powerwall, enums source file) -/

inductive NetworkInterface where
  | ethernet
  | cellular
  | wifi
deriving DecidableEq, Fintype

inductive OperatingMode where
  | backup
  | selfConsumption
  | autonomous
  | scheduler
  | siteControl
deriving DecidableEq, Fintype

inductive SystemStatus where
  | gridConnected
  | islandedReady
  | islandedActive
  | transitionToGrid
deriving DecidableEq, Fintype

inductive GridState where
  | compliant
  | qualifying
  | uncompliant
deriving DecidableEq, Fintype

/-- Go map lookup over the fixed decode tables (keys are distinct, so
iteration/order details of Go maps are immaterial). -/
def tableLookup {α : Type} (tbl : List (String × α)) (s : String) : Option α :=
  match tbl with
  | [] => none
  | (k, v) :: rest => if k = s then some v else tableLookup rest s

def stringToInterface : List (String × NetworkInterface) :=
  [("EthType", .ethernet), ("GsmType", .cellular), ("WifiType", .wifi)]

def stringToOperatingMode : List (String × OperatingMode) :=
  [("backup", .backup), ("self_consumption", .selfConsumption),
   ("autonomous", .autonomous), ("scheduler", .scheduler),
   ("site_control", .siteControl)]

def stringToSystemStatus : List (String × SystemStatus) :=
  [("SystemGridConnected", .gridConnected), ("SystemIslandedReady", .islandedReady),
   ("SystemIslandedActive", .islandedActive), ("SystemTransitionToGrid", .transitionToGrid)]

def stringToGridState : List (String × GridState) :=
  [("Grid_Compliant", .compliant), ("Grid_Qualifying", .qualifying),
   ("Grid_Uncompliant", .uncompliant)]

/-- Display method `NetworkInterface.String()`. -/
def NetworkInterface.string : NetworkInterface → String
  | .ethernet => "ethernet"
  | .cellular => "cellular"
  | .wifi => "wifi"

/-- Display method `OperatingMode.String()`. -/
def OperatingMode.string : OperatingMode → String
  | .backup => "Backup"
  | .selfConsumption => "Self Consumption"
  | .autonomous => "Autonomous"
  | .scheduler => "Scheduler"
  | .siteControl => "SiteControl"

/-- Display method `SystemStatus.String()`. -/
def SystemStatus.string : SystemStatus → String
  | .gridConnected => "GridConnected"
  | .islandedReady => "IslandedReady"
  | .islandedActive => "IslandedActive"
  | .transitionToGrid => "TransitionToGrid"

/-- Display method `GridState.String()` (the source really does spell
the compliant case "Complaint"). -/
def GridState.string : GridState → String
  | .compliant => "Complaint"
  | .qualifying => "Qualifying"
  | .uncompliant => "Uncompliant"

/-- Decoder `NetworkInterface.UnmarshalJSON` applied to the decoded JSON string. -/
def NetworkInterface.unmarshalJSON (s : String) : Except String NetworkInterface :=
  match tableLookup stringToInterface s with
  | some v => .ok v
  | none => .error ("unknown NetworkInterface " ++ goQuote s)

/-- Decoder `OperatingMode.UnmarshalJSON` applied to the decoded JSON string. -/
def OperatingMode.unmarshalJSON (s : String) : Except String OperatingMode :=
  match tableLookup stringToOperatingMode s with
  | some v => .ok v
  | none => .error ("unknown OperatingMode " ++ goQuote s)

/-- Decoder `SystemStatus.UnmarshalJSON` applied to the decoded JSON string. -/
def SystemStatus.unmarshalJSON (s : String) : Except String SystemStatus :=
  match tableLookup stringToSystemStatus s with
  | some v => .ok v
  | none => .error ("unknown SystemStatus " ++ goQuote s)

/-- Decoder `GridState.UnmarshalJSON` applied to the decoded JSON string. -/
def GridState.unmarshalJSON (s : String) : Except String GridState :=
  match tableLookup stringToGridState s with
  | some v => .ok v
  | none => .error ("unknown GridState " ++ goQuote s)

/-! ## MeterType (package model) -/

inductive MeterType where
  | total
  | load
  | solar
  | battery
deriving DecidableEq, Fintype

/-- Display method `MeterType.String()`. -/
def MeterType.string : MeterType → String
  | .total => "site"
  | .load => "load"
  | .solar => "solar"
  | .battery => "battery"

/-! ## Structured-duration codec (package powerwall, helpers source)

The source parses uptime strings with
`((?P<hours>\d+?)h)?((?P<minutes>\d+?)m)?((?P<seconds>\d+?).)((?P<nanoseconds>\d+?)s)`
via `regexp.FindStringSubmatch`.  The matcher below embeds exactly this
pattern: each optional group prefers to be present, each `\d+?` prefers
fewer digits, the unescaped `.` matches any character except a newline,
and the overall search prefers the leftmost starting position.  A group
that does not participate in the match captures the empty string, as in
Go. -/

/-- Named captures of one `uptimeRegex` match.  Non-participating
optional groups capture `""`, mirroring Go submatch semantics. -/
structure UptimeCaptures where
  hours : String
  minutes : String
  seconds : String
  nanoseconds : String
deriving DecidableEq

/-- Lazy `\d+?`: consume at least one digit, preferring as few as
possible, then hand the digits consumed so far and the rest of the
input to the continuation; on continuation failure, consume one more
digit and retry. -/
def digitsLazyGo (acc : List Char)
    (k : List Char → List Char → Option UptimeCaptures) :
    List Char → Option UptimeCaptures
  | [] => none
  | c :: rest =>
    if c.isDigit then
      match k (acc ++ [c]) rest with
      | some r => some r
      | none => digitsLazyGo (acc ++ [c]) k rest
    else none

/-- Entry point for `\d+?` with an empty accumulator. -/
def digitsLazy (s : List Char)
    (k : List Char → List Char → Option UptimeCaptures) : Option UptimeCaptures :=
  digitsLazyGo [] k s

/-- Fragment `((?P<nanoseconds>\d+?)s)`. -/
def matchNanoseconds (s : List Char)
    (k : List Char → List Char → Option UptimeCaptures) : Option UptimeCaptures :=
  digitsLazy s (fun ns rest =>
    match rest with
    | 's' :: rest2 => k ns rest2
    | _ => none)

/-- Fragment `((?P<seconds>\d+?).)((?P<nanoseconds>\d+?)s)`; the unescaped `.`
matches any character except a newline. -/
def matchSecondsNanos (s : List Char)
    (k : List Char → List Char → List Char → Option UptimeCaptures) :
    Option UptimeCaptures :=
  digitsLazy s (fun sec rest =>
    match rest with
    | c :: rest2 =>
      if c = '\n' then none
      else matchNanoseconds rest2 (fun ns rest3 => k sec ns rest3)
    | [] => none)

/-- Fragment `((?P<minutes>\d+?)m)?`: a greedy optional group, preferring
presence over absence. -/
def matchMinutesOpt (s : List Char)
    (k : List Char → List Char → Option UptimeCaptures) : Option UptimeCaptures :=
  match digitsLazy s (fun mn rest =>
      match rest with
      | 'm' :: rest2 => k mn rest2
      | _ => none) with
  | some r => some r
  | none => k [] s

/-- Fragment `((?P<hours>\d+?)h)?`: a greedy optional group, preferring
presence over absence. -/
def matchHoursOpt (s : List Char)
    (k : List Char → List Char → Option UptimeCaptures) : Option UptimeCaptures :=
  match digitsLazy s (fun h rest =>
      match rest with
      | 'h' :: rest2 => k h rest2
      | _ => none) with
  | some r => some r
  | none => k [] s

/-- One attempt of the whole `uptimeRegex` anchored at the given
position. -/
def matchUptimeAt (s : List Char) : Option UptimeCaptures :=
  matchHoursOpt s (fun h rest1 =>
    matchMinutesOpt rest1 (fun mn rest2 =>
      matchSecondsNanos rest2 (fun sec ns _rest3 =>
        some { hours := String.mk h, minutes := String.mk mn,
               seconds := String.mk sec, nanoseconds := String.mk ns })))

/-- Search `uptimeRegex.FindStringSubmatch`: try each starting position from
the left, returning the captures of the first (leftmost) match, or
`none` when the whole string has no match. -/
def findUptime (s : List Char) : Option UptimeCaptures :=
  match matchUptimeAt s with
  | some r => some r
  | none =>
    match s with
    | [] => none
    | _ :: rest => findUptime rest

/-- Decoder `Duration.UnmarshalJSON` applied to the decoded JSON string.  The
result is the parsed `time.Duration` in nanoseconds.  When the regex
does not match at all, the capture loop of the source runs zero times,
every named group defaults to zero in the result map, and the decoded
duration is zero with no error.  When the regex matches, every named
capture (participating or not) is passed to `strconv.ParseInt`, whose
error (for instance on the empty capture of an absent optional group)
aborts the decode. -/
def durationUnmarshalJSON (s : String) : Except String Int :=
  match findUptime s.data with
  | none => .ok 0
  | some caps => do
    let hours ← parseInt64 caps.hours
    let minutes ← parseInt64 caps.minutes
    let seconds ← parseInt64 caps.seconds
    let nanoseconds ← parseInt64 caps.nanoseconds
    .ok (i64add (i64add (i64add (i64mul hours 3600000000000)
      (i64mul minutes 60000000000)) (i64mul seconds 1000000000)) nanoseconds)

/-! ## Timestamp codec (package powerwall, helpers source) -/

/-- Helper for `stripFractionalSeconds`: locate the split point of
`^(.*)\.\d+(.*)$`.  The greedy leading `(.*)` makes the first group end
at the last `.` that is followed by a digit; the result is the text
before that dot and the text after it (which starts with a digit). -/
def splitAtLastFrac : List Char → Option (List Char × List Char)
  | [] => none
  | c :: rest =>
    match splitAtLastFrac rest with
    | some (pre, post) => some (c :: pre, post)
    | none =>
      if c = '.' then
        match rest with
        | d :: _ => if d.isDigit then some ([], rest) else none
        | [] => none
      else none

/-- The `stripFractionalSeconds` rewrite of the source: when
`^(.*)\.\d+(.*)$` matches, the string is replaced by group 1 followed
by group 2, deleting the last dot-plus-digit-run; greedy `\d+` takes
the maximal digit run after the dot. -/
def stripFractionalSeconds (s : String) : String :=
  match splitAtLastFrac s.data with
  | some (pre, post) => String.mk (pre ++ post.dropWhile Char.isDigit)
  | none => s

/-- Broken-down timestamp as produced by `time.Parse` on the three
layouts of the source; `offsetSeconds` is seconds east of UTC. -/
structure DateTimeParts where
  year : Nat
  month : Nat
  day : Nat
  hour : Nat
  minute : Nat
  second : Nat
  offsetSeconds : Int
deriving DecidableEq

def isLeapYear (y : Nat) : Bool :=
  (y % 4 == 0 && y % 100 != 0) || y % 400 == 0

def daysInMonth (y m : Nat) : Nat :=
  if m = 2 then (if isLeapYear y then 29 else 28)
  else if m = 4 ∨ m = 6 ∨ m = 9 ∨ m = 11 then 30
  else 31

/-- Read exactly two decimal digits. -/
def takeDigits2 : List Char → Option (Nat × List Char)
  | a :: b :: rest =>
    if a.isDigit && b.isDigit then
      some ((a.toNat - 48) * 10 + (b.toNat - 48), rest)
    else none
  | _ => none

/-- Read exactly four decimal digits. -/
def takeDigits4 : List Char → Option (Nat × List Char)
  | a :: b :: c :: d :: rest =>
    if a.isDigit && b.isDigit && c.isDigit && d.isDigit then
      some ((((a.toNat - 48) * 10 + (b.toNat - 48)) * 10 + (c.toNat - 48)) * 10
        + (d.toNat - 48), rest)
    else none
  | _ => none

/-- Read the common `YYYY-MM-DD<sep>HH:MM:SS` part of the three
layouts, with the field range checks `time.Parse` performs. -/
def parseDateTimeCore (sep : Char) (s : List Char) :
    Option (Nat × Nat × Nat × Nat × Nat × Nat × List Char) :=
  match takeDigits4 s with
  | none => none
  | some (y, r1) =>
    match r1 with
    | '-' :: r2 =>
      match takeDigits2 r2 with
      | none => none
      | some (mo, r3) =>
        match r3 with
        | '-' :: r4 =>
          match takeDigits2 r4 with
          | none => none
          | some (d, r5) =>
            match r5 with
            | c :: r6 =>
              if c = sep then
                match takeDigits2 r6 with
                | none => none
                | some (h, r7) =>
                  match r7 with
                  | ':' :: r8 =>
                    match takeDigits2 r8 with
                    | none => none
                    | some (mi, r9) =>
                      match r9 with
                      | ':' :: r10 =>
                        match takeDigits2 r10 with
                        | none => none
                        | some (sec, r11) =>
                          if 1 ≤ mo ∧ mo ≤ 12 ∧ 1 ≤ d ∧ d ≤ daysInMonth y mo ∧
                              h ≤ 23 ∧ mi ≤ 59 ∧ sec ≤ 59 then
                            some (y, mo, d, h, mi, sec, r11)
                          else none
                      | _ => none
                  | _ => none
              else none
            | [] => none
        | _ => none
    | _ => none

/-- Read a `±HH:MM` numeric offset (layout chunk `-07:00`), requiring
end of input after it. -/
def parseOffsetColon (s : List Char) : Option Int :=
  match s with
  | sign :: rest =>
    if sign = '+' ∨ sign = '-' then
      match takeDigits2 rest with
      | none => none
      | some (oh, r1) =>
        match r1 with
        | ':' :: r2 =>
          match takeDigits2 r2 with
          | none => none
          | some (om, r3) =>
            match r3 with
            | [] =>
              let mag : Int := (oh : Int) * 3600 + (om : Int) * 60
              some (if sign = '-' then -mag else mag)
            | _ => none
        | _ => none
    else none
  | [] => none

/-- Read a `±HHMM` numeric offset (layout chunk `-0700`), requiring
end of input after it. -/
def parseOffsetNumeric (s : List Char) : Option Int :=
  match s with
  | sign :: rest =>
    if sign = '+' ∨ sign = '-' then
      match takeDigits2 rest with
      | none => none
      | some (oh, r1) =>
        match takeDigits2 r1 with
        | none => none
        | some (om, r2) =>
          match r2 with
          | [] =>
            let mag : Int := (oh : Int) * 3600 + (om : Int) * 60
            some (if sign = '-' then -mag else mag)
          | _ => none
    else none
  | [] => none

/-- Model of `time.Parse` with layout `"2006-01-02T15:04:05-07:00"`. -/
def parseLayoutColonOffset (s : List Char) : Option DateTimeParts :=
  match parseDateTimeCore 'T' s with
  | none => none
  | some (y, mo, d, h, mi, sec, rest) =>
    match parseOffsetColon rest with
    | none => none
    | some off => some ⟨y, mo, d, h, mi, sec, off⟩

/-- Model of `time.Parse` with layout `"2006-01-02 15:04:05 -0700"`. -/
def parseLayoutSpaceOffset (s : List Char) : Option DateTimeParts :=
  match parseDateTimeCore ' ' s with
  | none => none
  | some (y, mo, d, h, mi, sec, rest) =>
    match rest with
    | ' ' :: r1 =>
      match parseOffsetNumeric r1 with
      | none => none
      | some off => some ⟨y, mo, d, h, mi, sec, off⟩
    | _ => none

/-- Model of `time.Parse` with layout `"2006-01-02T15:04:05Z"`; the lone `Z` is
a literal character in a Go layout, so the parsed time carries no
offset and defaults to UTC. -/
def parseLayoutLiteralZ (s : List Char) : Option DateTimeParts :=
  match parseDateTimeCore 'T' s with
  | none => none
  | some (y, mo, d, h, mi, sec, rest) =>
    match rest with
    | ['Z'] => some ⟨y, mo, d, h, mi, sec, 0⟩
    | _ => none

/-- Civil-calendar day count relative to 1970-01-01. -/
def daysFromCivil (y : Int) (m : Nat) (d : Nat) : Int :=
  let y2 : Int := if m ≤ 2 then y - 1 else y
  let era : Int := (if 0 ≤ y2 then y2 else y2 - 399) / 400
  let yoe : Int := y2 - era * 400
  let mp : Int := ((m : Int) + 9) % 12
  let doy : Int := (153 * mp + 2) / 5 + (d : Int) - 1
  let doe : Int := yoe * 365 + yoe / 4 - yoe / 100 + doy
  era * 146097 + doe - 719468

/-- The instant a parsed timestamp denotes, as Unix seconds. -/
def DateTimeParts.toUnix (p : DateTimeParts) : Int :=
  daysFromCivil (p.year : Int) p.month p.day * 86400
    + (p.hour : Int) * 3600 + (p.minute : Int) * 60 + (p.second : Int)
    - p.offsetSeconds

/-- The zero `time.Time` sentinel (January 1 of year 1, 00:00:00 UTC)
as Unix seconds. -/
def goZeroTimeUnix : Int := DateTimeParts.toUnix ⟨1, 1, 1, 0, 0, 0, 0⟩

/-- The layout loop of the source: the three layouts are tried in
order and the first successful parse wins. -/
def tryLayouts (s : List Char) : Option DateTimeParts :=
  match parseLayoutColonOffset s with
  | some g => some g
  | none =>
    match parseLayoutSpaceOffset s with
    | some g => some g
    | none => parseLayoutLiteralZ s

/-- Decoder `Time.UnmarshalJSON` applied to the decoded JSON string; the
result is the decoded instant in Unix seconds.  The empty string
becomes the zero sentinel; otherwise the fractional-seconds run is
stripped, the three layouts are tried in order, and on no match the
error quotes the string as it stands after stripping (the variable
`s` was reassigned by the strip step before the error is formatted). -/
def timeUnmarshalJSON (s : String) : Except String Int :=
  if s = "" then .ok goZeroTimeUnix
  else
    let s2 := stripFractionalSeconds s
    match tryLayouts s2.data with
    | some p => .ok p.toUnix
    | none => .error ("no layout matched timestamp " ++ goQuote s2)

/-! ## Timezone codec (package powerwall, helpers source) -/

/-- Result of `TimeZone.UnmarshalJSON`: the location field after the
call (`none` = left unset), the diagnostic log lines emitted, and the
error returned (always `none` once the JSON string itself decoded). -/
structure TimeZoneDecodeResult where
  loc : Option String
  logLines : List String
  err : Option String
deriving DecidableEq

/-- Decoder `TimeZone.UnmarshalJSON` applied to the decoded JSON string.
`resolve` stands for `time.LoadLocation`, the external IANA timezone
database lookup: `none` models an unresolvable name.  On resolution
failure the source logs the problem and returns `nil` rather than
propagating the error, leaving the location field unset. -/
def timeZoneUnmarshalJSON (resolve : String → Option String) (s : String) :
    TimeZoneDecodeResult :=
  match resolve s with
  | some ld => { loc := some ld, logLines := [], err := none }
  | none =>
    { loc := none
      logLines := ["The server reports timezone " ++ goQuote s ++
        ", but we cannot decode it"]
      err := none }

/-! ## Version projection (package model) and flattening (package view) -/

/-- Greedy `\d+`: the maximal leading digit run, required nonempty. -/
def takeDigitRun (s : List Char) : Option (List Char × List Char) :=
  let ds := s.takeWhile Char.isDigit
  if ds.isEmpty then none else some (ds, s.dropWhile Char.isDigit)

/-- Pattern `versionRegex = ^(\d+)\.(\d+)\.(\d+)`: the three leading
dot-separated digit groups, anchored at the start of the string. -/
def versionRegexMatch (s : String) : Option (String × String × String) :=
  match takeDigitRun s.data with
  | none => none
  | some (a, r1) =>
    match r1 with
    | '.' :: r2 =>
      match takeDigitRun r2 with
      | none => none
      | some (b, r3) =>
        match r3 with
        | '.' :: r4 =>
          match takeDigitRun r4 with
          | none => none
          | some (c, _) => some (String.mk a, String.mk b, String.mk c)
        | _ => none
    | _ => none

structure SoftwareVersion where
  major : Int
  minor : Int
  release : Int
deriving DecidableEq

/-- The version-parsing section of `getStatus`: match `versionRegex`
against the raw version string (a nil or short submatch list fails
with the `want A.B.C` error carrying the raw string) and
`strconv.ParseInt` each of the three captured groups. -/
def parseVersionTriple (raw : String) : Except String SoftwareVersion :=
  match versionRegexMatch raw with
  | none => .error ("version " ++ goQuote raw ++ " unexpected, want A.B.C")
  | some (a, b, c) => do
    let major ← parseInt64 a
    let minor ← parseInt64 b
    let release ← parseInt64 c
    .ok { major := major, minor := minor, release := release }

/-- Go `fmt.Sprintf("%02d", n)`: decimal rendering zero-padded to
width two. -/
def sprintf02d (n : Int) : String :=
  if 0 ≤ n ∧ n < 10 then "0" ++ toString n else toString n

/-- The `fmt.Sprintf("%02d%02d%02d", major, minor, release)` string
from which `Update` derives the flattened version gauge. -/
def flattenedVersionString (v : SoftwareVersion) : String :=
  sprintf02d v.major ++ sprintf02d v.minor ++ sprintf02d v.release

/-! ## Metrics model (package model) -/

structure NetworkInterfaceDetails where
  transport : NetworkInterface
  name : String
  active : Bool
  enabled : Bool
  primary : Bool
  signalStrength : Int
deriving DecidableEq

structure MeterDetails where
  instantPower : ℚ
  instantReactivePower : ℚ
  instantApparentPower : ℚ
  cumulativeEnergyTo : ℚ
  cumulativeEnergyFrom : ℚ
  instantAverageVoltage : ℚ
  instantTotalCurrent : ℚ
deriving DecidableEq

/-- Record `model.TeslaEnergyGatewayMetrics` (the `Fixed` block is omitted:
`Update` never reads it).  The Go maps for network interfaces and
meters are modelled as association lists; their Go iteration order is
unspecified and none of the claims depend on it. -/
structure TeslaEnergyGatewayMetrics where
  mode : OperatingMode
  backupReservePercent : ℚ
  uptime : Int
  version : SoftwareVersion
  networkInterfaces : List NetworkInterfaceDetails
  siteMasterRunning : Bool
  siteMasterConnectedToTesla : Bool
  siteMasterSupplyingPower : Bool
  meters : List (MeterType × MeterDetails)
  powerwallChargePercent : ℚ
  gridConnected : Bool
  gridActive : Bool
deriving DecidableEq

/-! ## Prometheus counter view (package view, counters source) -/

/-- Label keys and direction values of the source (`kInterface`,
`kMeter`, `kDirection`, `kFrom`, `kTo`, `kPowerType`). -/
def kTo : String := "to"

def kFrom : String := "from"

/-- The `epsilon` tolerance of `Update`. -/
def epsilon : ℚ := 1 / 100000

/-- One observable side effect of `Update`: a gauge write, a labelled
gauge write, a counter increment, or the `glog.Warningf` diagnostic
naming a meter, a direction and the negative delta. -/
inductive UpdateEvent where
  | setGauge (name : String) (value : ℚ)
  | setGaugeLabeled (name : String) (labels : List (String × String)) (value : ℚ)
  | addCounter (name : String) (labels : List (String × String)) (value : ℚ)
  | warnCounterDecreased (meter : MeterType) (direction : String) (delta : ℚ)
deriving DecidableEq

/-- The `priorCumulative` nested map, flattened to an association list
keyed by meter and direction string.  Absent keys read as `0`, the Go
zero value returned by a map lookup miss. -/
abbrev PriorCumulative := List ((MeterType × String) × ℚ)

def getPrior (st : PriorCumulative) (mt : MeterType) (dir : String) : ℚ :=
  match st with
  | [] => 0
  | (k, v) :: rest => if k = (mt, dir) then v else getPrior rest mt dir

def setPrior (st : PriorCumulative) (mt : MeterType) (dir : String) (v : ℚ) :
    PriorCumulative :=
  match st with
  | [] => [((mt, dir), v)]
  | (k, w) :: rest =>
    if k = (mt, dir) then (k, v) :: rest else (k, w) :: setPrior rest mt dir v

def boolToFloat (b : Bool) : ℚ := if b then 1 else 0

/-- The duplicated delta branch of the meter loop: publish a
non-negative delta as a counter increment; suppress a negative delta,
warning exactly when it is below `-epsilon`. -/
def deltaEvents (mt : MeterType) (dir : String) (delta : ℚ) : List UpdateEvent :=
  if delta < 0 then
    if delta < -epsilon then [.warnCounterDecreased mt dir delta] else []
  else
    [.addCounter "cumulative_power"
      [("meter", mt.string), ("direction", dir)] delta]

/-- The body of `for mt, meter := range m.Meters` in `Update`: the
five instantaneous gauges, then the `to` direction (stored value
updated before the branch), then the `from` direction (stored value
updated after the branch). -/
def updateMeter (st : PriorCumulative) (mt : MeterType) (meter : MeterDetails) :
    PriorCumulative × List UpdateEvent :=
  let evs0 : List UpdateEvent :=
    [.setGaugeLabeled "instant_power"
        [("meter", mt.string), ("powerType", "truePower")] meter.instantPower,
     .setGaugeLabeled "instant_power"
        [("meter", mt.string), ("powerType", "reactivePower")] meter.instantReactivePower,
     .setGaugeLabeled "instant_power"
        [("meter", mt.string), ("powerType", "apparentPower")] meter.instantApparentPower,
     .setGaugeLabeled "instant_average_voltage"
        [("meter", mt.string)] meter.instantAverageVoltage,
     .setGaugeLabeled "instant_total_current_amps"
        [("meter", mt.string)] meter.instantTotalCurrent]
  let deltaTo := meter.cumulativeEnergyTo - getPrior st mt kTo
  let st1 := setPrior st mt kTo meter.cumulativeEnergyTo
  let evs1 := deltaEvents mt kTo deltaTo
  let deltaFrom := meter.cumulativeEnergyFrom - getPrior st1 mt kFrom
  let evs2 := deltaEvents mt kFrom deltaFrom
  let st2 := setPrior st1 mt kFrom meter.cumulativeEnergyFrom
  (st2, evs0 ++ (evs1 ++ evs2))

/-- The meter loop of `Update`, threading `priorCumulative` through
`updateMeter` and concatenating the emitted events. -/
def updateMetersLoop (st : PriorCumulative) :
    List (MeterType × MeterDetails) → PriorCumulative × List UpdateEvent
  | [] => (st, [])
  | (mt, md) :: rest =>
    let r1 := updateMeter st mt md
    let r2 := updateMetersLoop r1.1 rest
    (r2.1, r1.2 ++ r2.2)

/-- The per-interface gauge writes of the network loop of `Update`. -/
def updateNetwork (net : NetworkInterfaceDetails) : List UpdateEvent :=
  let labels := [("interface", net.transport.string)]
  [.setGaugeLabeled "network_enabled" labels (boolToFloat net.enabled),
   .setGaugeLabeled "network_active" labels (boolToFloat net.active),
   .setGaugeLabeled "network_primary" labels (boolToFloat net.primary),
   .setGaugeLabeled "network_signal_strength" labels (net.signalStrength : ℚ)]

/-- Method `PrometheusCounters.Update`: the emitted events in program order,
the `priorCumulative` state after the call, and the returned error.
The flattened-version `strconv.ParseInt` failure returns early, after
the charge/mode/reserve/uptime/version gauges have been written but
before the network, site-master and meter sections run. -/
def Update (st : PriorCumulative) (m : TeslaEnergyGatewayMetrics) :
    List UpdateEvent × PriorCumulative × Option String :=
  let evsA : List UpdateEvent :=
    [.setGauge "powerwall_charge_percent" m.powerwallChargePercent,
     .setGauge "operating_in_backup_only_mode"
       (if m.mode = OperatingMode.backup then 1 else 0),
     .setGauge "operating_in_self_consumption_mode"
       (if m.mode = OperatingMode.selfConsumption then 1 else 0),
     .setGauge "backup_reserve_percent" m.backupReservePercent,
     .setGauge "uptime_seconds" ((m.uptime : ℚ) / 1000000000),
     .setGauge "major_version" (m.version.major : ℚ),
     .setGauge "minor_version" (m.version.minor : ℚ),
     .setGauge "release_version" (m.version.release : ℚ)]
  match parseInt64 (flattenedVersionString m.version) with
  | .error e => (evsA, st, some e)
  | .ok flat =>
    let evsB := evsA ++ [.setGauge "flattened_version" (flat : ℚ)]
    let evsC := evsB ++ (m.networkInterfaces.map updateNetwork).flatten
    let evsD := evsC ++
      [.setGauge "sitemaster_running" (boolToFloat m.siteMasterRunning),
       .setGauge "site_master_connected_to_tesla"
         (boolToFloat m.siteMasterConnectedToTesla),
       .setGauge "site_master_supplying_power"
         (boolToFloat m.siteMasterSupplyingPower)]
    let rm := updateMetersLoop st m.meters
    let evsE := rm.2
    let evsF := evsD ++ evsE ++
      [.setGauge "grid_connected" (boolToFloat m.gridConnected),
       .setGauge "grid_active" (boolToFloat m.gridActive)]
    (evsF, rm.1, none)

/-! ## Snapshot projection (package model) and poll engine
(package controller)

Each endpoint getter of `powerwall.Monitor` performs transport and
JSON decoding; the core consumes the typed record or the failure.  A
`Monitor` value below fixes the outcome of each endpoint for one poll
cycle. -/

structure Operation where
  realMode : OperatingMode
  backupReservePercent : ℚ
deriving DecidableEq

structure Status where
  upTime : Int
  version : String
deriving DecidableEq

structure NetworkInfoRec where
  signalStrength : Int
deriving DecidableEq

structure NetworkRec where
  name : String
  interface : NetworkInterface
  enabled : Bool
  active : Bool
  primary : Bool
  info : NetworkInfoRec
deriving DecidableEq

structure SiteMasterRec where
  running : Bool
  connectedToTesla : Bool
  powerSupplyMode : Bool
deriving DecidableEq

structure PwMeterDetails where
  instantPower : ℚ
  instantReactivePower : ℚ
  instantApparentPower : ℚ
  energyExported : ℚ
  energyImported : ℚ
  instantAverageVoltage : ℚ
  instantTotalCurrent : ℚ
deriving DecidableEq

structure Aggregates where
  site : PwMeterDetails
  battery : PwMeterDetails
  load : PwMeterDetails
  solar : PwMeterDetails
deriving DecidableEq

structure SOE where
  percentage : ℚ
deriving DecidableEq

structure GridStatusRec where
  status : SystemStatus
  active : Bool
deriving DecidableEq

deriving instance DecidableEq for Except

/-- The per-cycle outcome of each dynamic endpoint of
`powerwall.Monitor` (the fixed-info endpoints are consumed only at
startup and play no part in the poll cycle). -/
structure Monitor where
  getOperation : Except String Operation
  getStatus : Except String Status
  getNetworks : Except String (List NetworkRec)
  getSiteMaster : Except String SiteMasterRec
  getAggregates : Except String Aggregates
  getSOE : Except String SOE
  getGridStatus : Except String GridStatusRec
deriving DecidableEq

/-- The `getdetails` conversion inside `getAggregates` of the model:
`CumulativeEnergyFrom` is the exported energy and
`CumulativeEnergyTo` the imported energy. -/
def getDetails (d : PwMeterDetails) : MeterDetails :=
  { instantPower := d.instantPower
    instantReactivePower := d.instantReactivePower
    instantApparentPower := d.instantApparentPower
    cumulativeEnergyFrom := d.energyExported
    cumulativeEnergyTo := d.energyImported
    instantAverageVoltage := d.instantAverageVoltage
    instantTotalCurrent := d.instantTotalCurrent }

/-- Function `model.Poll` / `getDynamicInfo`: run the six getters in source
order (`getOperations`, `getStatus`, `getNetworks`, `getSiteMaster`,
`getAggregates`, `getSOE` with its trailing grid-status call); the
first failure — endpoint decode or version projection — aborts the
whole snapshot and no metrics value is produced. -/
def modelPoll (mon : Monitor) : Except String TeslaEnergyGatewayMetrics := do
  let operation ← mon.getOperation
  let status ← mon.getStatus
  let version ← parseVersionTriple status.version
  let networks ← mon.getNetworks
  let siteMaster ← mon.getSiteMaster
  let agg ← mon.getAggregates
  let soe ← mon.getSOE
  let gridstatus ← mon.getGridStatus
  .ok
    { mode := operation.realMode
      backupReservePercent := operation.backupReservePercent
      uptime := status.upTime
      version := version
      networkInterfaces := networks.map (fun nw =>
        { transport := nw.interface, name := nw.name, enabled := nw.enabled,
          active := nw.active, primary := nw.primary,
          signalStrength := nw.info.signalStrength })
      siteMasterRunning := siteMaster.running
      siteMasterConnectedToTesla := siteMaster.connectedToTesla
      siteMasterSupplyingPower := siteMaster.powerSupplyMode
      meters :=
        [(MeterType.total, getDetails agg.site),
         (MeterType.load, getDetails agg.load),
         (MeterType.solar, getDetails agg.solar),
         (MeterType.battery, getDetails agg.battery)]
      powerwallChargePercent := soe.percentage
      gridConnected := gridstatus.status = SystemStatus.gridConnected
      gridActive := gridstatus.active }

/-- Method `PollEngine.poll`: `model.Poll` then `view.Update`.  A snapshot
failure returns before `Update` runs, so the stored cumulative state
and the instruments are untouched. -/
def pollStep (mon : Monitor) (st : PriorCumulative) :
    PriorCumulative × List UpdateEvent × Option String :=
  match modelPoll mon with
  | .error e => (st, [], some e)
  | .ok stats =>
    let r := Update st stats
    (r.2.1, r.1, r.2.2)

/-- The two poll-cycle stimuli the specification talks about. -/
inductive Trigger where
  | timerTick
  | httpRequest
deriving DecidableEq

/-- One stimulus handled by the process as `Run` wires it: `Run`
creates `ticker` (and the `close` channel) but starts no goroutine and
contains no receive from `ticker.C`, so a timer tick has no handler
and changes nothing; an inbound metrics request runs `ServeHTTP`,
which polls and answers 500 on failure or 200 with the rendered
metrics on success. -/
def engineStep (mon : Monitor) (st : PriorCumulative) :
    Trigger → PriorCumulative × List UpdateEvent × Option Nat
  | .timerTick => (st, [], none)
  | .httpRequest =>
    let r := pollStep mon st
    match r.2.2 with
    | some _ => (r.1, r.2.1, some 500)
    | none => (r.1, r.2.1, some 200)

/-! ## Auxiliary definitions for the verification -/

/-- Returns `true` when the first list starts with the second. -/
def charsStartWith : List Char → List Char → Bool
  | _, [] => true
  | [], _ :: _ => false
  | h :: hs, n :: ns => h = n && charsStartWith hs ns

/-- Returns `true` when `needle` occurs contiguously inside `hay`. -/
def strContainsSub (hay needle : String) : Bool :=
  go hay.data
where
  go : List Char → Bool
    | [] => charsStartWith [] needle.data
    | c :: hs => charsStartWith (c :: hs) needle.data || go hs

/-- Fixture: a poll cycle whose very first endpoint read fails. -/
def failingMonitor : Monitor where
  getOperation := .error "mon.GetOperation(): 500"
  getStatus := .error "unused"
  getNetworks := .error "unused"
  getSiteMaster := .error "unused"
  getAggregates := .error "unused"
  getSOE := .error "unused"
  getGridStatus := .error "unused"

/-- Fixture: stored cumulative state holding the prior readings of the
specification example (solar meter, 100.0 imported, 100.2 exported). -/
def examplePriorState : PriorCumulative :=
  [((MeterType.solar, kTo), 100), ((MeterType.solar, kFrom), 501 / 5)]

/-- Fixture: a meter reading whose `to` cumulative value rose by 0.2
and whose `from` cumulative value fell by 0.1. -/
def exampleMeterReading : MeterDetails where
  instantPower := 1
  instantReactivePower := 2
  instantApparentPower := 3
  cumulativeEnergyTo := 501 / 5
  cumulativeEnergyFrom := 1001 / 10
  instantAverageVoltage := 240
  instantTotalCurrent := 5

/-- Fixture: a metrics value whose version components flatten to a
string that overflows `int64`. -/
def overflowVersionMetrics : TeslaEnergyGatewayMetrics where
  mode := OperatingMode.backup
  backupReservePercent := 20
  uptime := 5000000000
  version := { major := 9223372036854775807, minor := 0, release := 0 }
  networkInterfaces := []
  siteMasterRunning := true
  siteMasterConnectedToTesla := true
  siteMasterSupplyingPower := false
  meters := [(MeterType.solar, exampleMeterReading)]
  powerwallChargePercent := 55
  gridConnected := true
  gridActive := false

/-! ## Helper lemmas -/

theorem getPrior_setPrior_same (st : PriorCumulative) (mt : MeterType)
    (dir : String) (v : ℚ) : getPrior (setPrior st mt dir v) mt dir = v := by
  induction st with
  | nil => simp [getPrior, setPrior]
  | cons p rest ih =>
    obtain ⟨k, w⟩ := p
    by_cases hk : k = (mt, dir)
    · simp [setPrior, getPrior, hk]
    · simp [setPrior, getPrior, hk, ih]

theorem getPrior_setPrior_other (st : PriorCumulative) (mt : MeterType)
    (dir : String) (mt2 : MeterType) (dir2 : String) (v : ℚ)
    (h : (mt2, dir2) ≠ (mt, dir)) :
    getPrior (setPrior st mt2 dir2 v) mt dir = getPrior st mt dir := by
  induction st with
  | nil => simp [getPrior, setPrior, h]
  | cons p rest ih =>
    obtain ⟨k, w⟩ := p
    by_cases hk : k = (mt2, dir2)
    · subst hk
      simp [setPrior, getPrior, h]
    · simp [setPrior, getPrior, hk, ih]

theorem addCounter_mem_deltaEvents (mt : MeterType) (dir : String) (delta : ℚ)
    (n : String) (l : List (String × String)) (q : ℚ) :
    UpdateEvent.addCounter n l q ∈ deltaEvents mt dir delta ↔
      (0 ≤ delta ∧ n = "cumulative_power" ∧
        l = [("meter", mt.string), ("direction", dir)] ∧ q = delta) := by
  unfold deltaEvents
  split_ifs with h1 h2
  · simp [not_le.mpr h1]
  · simp [not_le.mpr h1]
  · simp [not_lt.mp h1, and_assoc]

theorem warn_mem_deltaEvents (mt : MeterType) (dir : String) (delta : ℚ)
    (mt2 : MeterType) (dir2 : String) (q : ℚ) :
    UpdateEvent.warnCounterDecreased mt2 dir2 q ∈ deltaEvents mt dir delta ↔
      (delta < -epsilon ∧ mt2 = mt ∧ dir2 = dir ∧ q = delta) := by
  unfold deltaEvents
  split_ifs with h1 h2
  · simp [h2, and_assoc]
  · simp [h2]
  · have hno : ¬ delta < -epsilon := by
      refine not_lt.mpr (le_trans ?_ (not_lt.mp h1))
      norm_num [epsilon]
    simp [hno]

/-! ## Claim theorems -/

/-- C2: a poll cycle whose snapshot decode/projection fails leaves the
per-meter per-direction stored cumulative state exactly as it was
before the cycle began (and publishes nothing); the state is mutated
only after a fully successful snapshot. -/
theorem c2_poll_atomicity (mon : Monitor) (st : PriorCumulative) (e : String)
    (h : modelPoll mon = .error e) :
    pollStep mon st = (st, [], some e) := by
  simp only [pollStep, h]

/-- Witness for C2 at a concrete monitor whose first endpoint fails. -/
theorem c2_poll_atomicity_witness :
    modelPoll failingMonitor = .error "mon.GetOperation(): 500" ∧
    pollStep failingMonitor examplePriorState =
      (examplePriorState, [], some "mon.GetOperation(): 500") :=
  ⟨rfl, c2_poll_atomicity failingMonitor examplePriorState _ rfl⟩

/-- C4 support: as `Run` wires the process, a timer tick is never
received by anything and so triggers no poll, no state change and no
output; this evaluates the code at the failing input of the claim
(the interval elapsing with no inbound request). -/
theorem c4_timer_tick_is_ignored (mon : Monitor) (st : PriorCumulative) :
    engineStep mon st Trigger.timerTick = (st, [], none) := rfl

/-- C6: projecting the version string `"20.49.3"` yields major 20,
minor 49 and release 3; the flattened form zero-pads each component to
two digits, concatenates and re-parses to 204903; and any version
string in which the anchored `^(\d+)\.(\d+)\.(\d+)` pattern finds
fewer than three leading numeric groups fails the projection with the
`want A.B.C` error carrying the raw string. -/
theorem c6_version_flattening :
    parseVersionTriple "20.49.3" = .ok { major := 20, minor := 49, release := 3 } ∧
    flattenedVersionString { major := 20, minor := 49, release := 3 } = "204903" ∧
    parseInt64 (flattenedVersionString { major := 20, minor := 49, release := 3 }) =
      .ok 204903 ∧
    (∀ s, versionRegexMatch s = none →
      parseVersionTriple s =
        .error ("version " ++ goQuote s ++ " unexpected, want A.B.C")) := by
  refine ⟨by decide, by decide, by decide, ?_⟩
  intro s h
  simp only [parseVersionTriple, h]

/-- Witness for C6 at the short version string `"20.49"`. -/
theorem c6_version_flattening_witness :
    versionRegexMatch "20.49" = none ∧
    parseVersionTriple "20.49" =
      .error ("version " ++ goQuote "20.49" ++ " unexpected, want A.B.C") :=
  ⟨by decide, c6_version_flattening.2.2.2 "20.49" (by decide)⟩

/-- C7: for each of the four enumerations, every token of its decode
table decodes to exactly the mapped value; every string outside the
table fails with the unknown-value error naming the raw string; and
the display strings of the defined values are pairwise distinct. -/
theorem c7_enum_codecs :
    (∀ p ∈ stringToInterface, NetworkInterface.unmarshalJSON p.1 = .ok p.2) ∧
    (∀ s, tableLookup stringToInterface s = none →
      NetworkInterface.unmarshalJSON s =
        .error ("unknown NetworkInterface " ++ goQuote s)) ∧
    (∀ a b : NetworkInterface, a ≠ b →
      NetworkInterface.string a ≠ NetworkInterface.string b) ∧
    (∀ p ∈ stringToOperatingMode, OperatingMode.unmarshalJSON p.1 = .ok p.2) ∧
    (∀ s, tableLookup stringToOperatingMode s = none →
      OperatingMode.unmarshalJSON s =
        .error ("unknown OperatingMode " ++ goQuote s)) ∧
    (∀ a b : OperatingMode, a ≠ b →
      OperatingMode.string a ≠ OperatingMode.string b) ∧
    (∀ p ∈ stringToSystemStatus, SystemStatus.unmarshalJSON p.1 = .ok p.2) ∧
    (∀ s, tableLookup stringToSystemStatus s = none →
      SystemStatus.unmarshalJSON s =
        .error ("unknown SystemStatus " ++ goQuote s)) ∧
    (∀ a b : SystemStatus, a ≠ b →
      SystemStatus.string a ≠ SystemStatus.string b) ∧
    (∀ p ∈ stringToGridState, GridState.unmarshalJSON p.1 = .ok p.2) ∧
    (∀ s, tableLookup stringToGridState s = none →
      GridState.unmarshalJSON s = .error ("unknown GridState " ++ goQuote s)) ∧
    (∀ a b : GridState, a ≠ b → GridState.string a ≠ GridState.string b) := by
  refine ⟨by decide, ?_, by decide, by decide, ?_, by decide, by decide, ?_,
    by decide, by decide, ?_, by decide⟩
  · intro s h
    simp only [NetworkInterface.unmarshalJSON, h]
  · intro s h
    simp only [OperatingMode.unmarshalJSON, h]
  · intro s h
    simp only [SystemStatus.unmarshalJSON, h]
  · intro s h
    simp only [GridState.unmarshalJSON, h]

/-- Witness for C7: the string `"bogus"` is outside every table and
each decoder rejects it with its unknown-value error. -/
theorem c7_enum_codecs_witness :
    tableLookup stringToInterface "bogus" = none ∧
    NetworkInterface.unmarshalJSON "bogus" =
      .error ("unknown NetworkInterface " ++ goQuote "bogus") ∧
    OperatingMode.unmarshalJSON "bogus" =
      .error ("unknown OperatingMode " ++ goQuote "bogus") ∧
    SystemStatus.unmarshalJSON "bogus" =
      .error ("unknown SystemStatus " ++ goQuote "bogus") ∧
    GridState.unmarshalJSON "bogus" =
      .error ("unknown GridState " ++ goQuote "bogus") :=
  ⟨by decide,
   c7_enum_codecs.2.1 "bogus" (by decide),
   c7_enum_codecs.2.2.2.2.1 "bogus" (by decide),
   c7_enum_codecs.2.2.2.2.2.2.2.1 "bogus" (by decide),
   c7_enum_codecs.2.2.2.2.2.2.2.2.2.2.1 "bogus" (by decide)⟩

/-- C8: an unresolvable IANA timezone name is not an error: the decode
returns nil, the location field stays unset, and a diagnostic line is
logged. -/
theorem c8_timezone_degrade (resolve : String → Option String) (s : String)
    (h : resolve s = none) :
    timeZoneUnmarshalJSON resolve s =
      { loc := none
        logLines := ["The server reports timezone " ++ goQuote s ++
          ", but we cannot decode it"]
        err := none } := by
  simp only [timeZoneUnmarshalJSON, h]

/-- Witness for C8 with an empty timezone database and a made-up
zone name. -/
theorem c8_timezone_degrade_witness :
    timeZoneUnmarshalJSON (fun _ => none) "Mars/Phobos" =
      { loc := none
        logLines := ["The server reports timezone " ++ goQuote "Mars/Phobos" ++
          ", but we cannot decode it"]
        err := none } :=
  c8_timezone_degrade (fun _ => none) "Mars/Phobos" rfl

/-- C9: any decoded JSON string the uptime regex does not match at all
decodes without error to the zero duration (the capture loop runs zero
times and every named group defaults to zero). -/
theorem c9_duration_nonmatch_zero (s : String) (h : findUptime s.data = none) :
    durationUnmarshalJSON s = .ok 0 := by
  simp only [durationUnmarshalJSON, h]

/-- Witness for C9 at the non-duration string `"hello"`. -/
theorem c9_duration_nonmatch_zero_witness :
    findUptime "hello".data = none ∧ durationUnmarshalJSON "hello" = .ok 0 :=
  ⟨by decide, c9_duration_nonmatch_zero "hello" (by decide)⟩

/-- C10: when the flattened-version `strconv.ParseInt` fails, `Update`
returns that error, but only after the charge-percent, both mode
gauges, the backup-reserve, uptime and major/minor/release version
gauges have been written; the stored cumulative state is unchanged and
no counter increment or further gauge write happens. -/
theorem c10_update_not_atomic (st : PriorCumulative)
    (m : TeslaEnergyGatewayMetrics) (e : String)
    (h : parseInt64 (flattenedVersionString m.version) = .error e) :
    Update st m =
      ([.setGauge "powerwall_charge_percent" m.powerwallChargePercent,
        .setGauge "operating_in_backup_only_mode"
          (if m.mode = OperatingMode.backup then 1 else 0),
        .setGauge "operating_in_self_consumption_mode"
          (if m.mode = OperatingMode.selfConsumption then 1 else 0),
        .setGauge "backup_reserve_percent" m.backupReservePercent,
        .setGauge "uptime_seconds" ((m.uptime : ℚ) / 1000000000),
        .setGauge "major_version" (m.version.major : ℚ),
        .setGauge "minor_version" (m.version.minor : ℚ),
        .setGauge "release_version" (m.version.release : ℚ)], st, some e) := by
  simp only [Update, h]

/-- Witness for C10 at a metrics value whose flattened version string
overflows `int64`: the eight gauges are written, the error is
returned, and the (empty) stored state is untouched. -/
theorem c10_update_not_atomic_witness :
    parseInt64 (flattenedVersionString overflowVersionMetrics.version) =
      .error ("strconv.ParseInt: parsing " ++
        goQuote "92233720368547758070000" ++ ": value out of range") ∧
    Update [] overflowVersionMetrics =
      ([.setGauge "powerwall_charge_percent" 55,
        .setGauge "operating_in_backup_only_mode" 1,
        .setGauge "operating_in_self_consumption_mode" 0,
        .setGauge "backup_reserve_percent" 20,
        .setGauge "uptime_seconds" 5,
        .setGauge "major_version" 9223372036854775807,
        .setGauge "minor_version" 0,
        .setGauge "release_version" 0], [],
       some ("strconv.ParseInt: parsing " ++
        goQuote "92233720368547758070000" ++ ": value out of range")) :=
  ⟨by decide,
   (c10_update_not_atomic [] overflowVersionMetrics
     ("strconv.ParseInt: parsing " ++ goQuote "92233720368547758070000" ++
       ": value out of range") (by decide)).trans
    (by norm_num [overflowVersionMetrics]; decide)⟩

/-- C1: for a meter and either direction, one `Update` step computes
`delta` as the new cumulative reading minus the stored prior value; a
non-negative delta is published as a counter increment; a negative
delta publishes nothing and warns exactly when it is below
`-0.00001`; and in every case the stored value becomes the new
reading. -/
theorem c1_counter_delta (st : PriorCumulative) (mt : MeterType)
    (md : MeterDetails) :
    getPrior (updateMeter st mt md).1 mt kTo = md.cumulativeEnergyTo ∧
    getPrior (updateMeter st mt md).1 mt kFrom = md.cumulativeEnergyFrom ∧
    (0 ≤ md.cumulativeEnergyTo - getPrior st mt kTo →
      UpdateEvent.addCounter "cumulative_power"
        [("meter", mt.string), ("direction", kTo)]
        (md.cumulativeEnergyTo - getPrior st mt kTo) ∈ (updateMeter st mt md).2) ∧
    (md.cumulativeEnergyTo - getPrior st mt kTo < 0 →
      ∀ q, UpdateEvent.addCounter "cumulative_power"
        [("meter", mt.string), ("direction", kTo)] q ∉ (updateMeter st mt md).2) ∧
    ((∃ q, UpdateEvent.warnCounterDecreased mt kTo q ∈ (updateMeter st mt md).2) ↔
      md.cumulativeEnergyTo - getPrior st mt kTo < -epsilon) ∧
    (0 ≤ md.cumulativeEnergyFrom - getPrior st mt kFrom →
      UpdateEvent.addCounter "cumulative_power"
        [("meter", mt.string), ("direction", kFrom)]
        (md.cumulativeEnergyFrom - getPrior st mt kFrom) ∈ (updateMeter st mt md).2) ∧
    (md.cumulativeEnergyFrom - getPrior st mt kFrom < 0 →
      ∀ q, UpdateEvent.addCounter "cumulative_power"
        [("meter", mt.string), ("direction", kFrom)] q ∉ (updateMeter st mt md).2) ∧
    ((∃ q, UpdateEvent.warnCounterDecreased mt kFrom q ∈ (updateMeter st mt md).2) ↔
      md.cumulativeEnergyFrom - getPrior st mt kFrom < -epsilon) := by
  have hTF : ((mt, kTo) : MeterType × String) ≠ (mt, kFrom) := by
    simp [kTo, kFrom]
  have hFT : ((mt, kFrom) : MeterType × String) ≠ (mt, kTo) := by
    simp [kTo, kFrom]
  have hfrom : getPrior (setPrior st mt kTo md.cumulativeEnergyTo) mt kFrom =
      getPrior st mt kFrom :=
    getPrior_setPrior_other st mt kFrom mt kTo md.cumulativeEnergyTo hTF
  have hst : (updateMeter st mt md).1 =
      setPrior (setPrior st mt kTo md.cumulativeEnergyTo) mt kFrom
        md.cumulativeEnergyFrom := rfl
  have hev : (updateMeter st mt md).2 =
      [UpdateEvent.setGaugeLabeled "instant_power"
          [("meter", mt.string), ("powerType", "truePower")] md.instantPower,
       UpdateEvent.setGaugeLabeled "instant_power"
          [("meter", mt.string), ("powerType", "reactivePower")] md.instantReactivePower,
       UpdateEvent.setGaugeLabeled "instant_power"
          [("meter", mt.string), ("powerType", "apparentPower")] md.instantApparentPower,
       UpdateEvent.setGaugeLabeled "instant_average_voltage"
          [("meter", mt.string)] md.instantAverageVoltage,
       UpdateEvent.setGaugeLabeled "instant_total_current_amps"
          [("meter", mt.string)] md.instantTotalCurrent] ++
      (deltaEvents mt kTo (md.cumulativeEnergyTo - getPrior st mt kTo) ++
       deltaEvents mt kFrom (md.cumulativeEnergyFrom - getPrior st mt kFrom)) := by
    simp only [updateMeter, hfrom]
  have hdir : kTo ≠ kFrom := by decide
  have hdir2 : kFrom ≠ kTo := by decide
  refine ⟨?_, ?_, ?_, ?_, ?_, ?_, ?_, ?_⟩
  · rw [hst, getPrior_setPrior_other _ _ _ _ _ _ hFT, getPrior_setPrior_same]
  · rw [hst, getPrior_setPrior_same]
  · intro h
    rw [hev]
    simp [addCounter_mem_deltaEvents, h]
  · intro h q
    rw [hev]
    simp [addCounter_mem_deltaEvents, not_le.mpr h, hdir]
  · rw [hev]
    simp [warn_mem_deltaEvents, hdir]
  · intro h
    rw [hev]
    simp [addCounter_mem_deltaEvents, h, hdir]
  · intro h q
    rw [hev]
    simp [addCounter_mem_deltaEvents, not_le.mpr h, hdir2]
  · rw [hev]
    simp [warn_mem_deltaEvents, hdir2]

/-- Witness for C1 at the specification example: prior 100.0 / new
100.2 in the `to` direction publishes +0.2; prior 100.2 / new 100.1
in the `from` direction publishes nothing, warns, and still stores
100.1. -/
theorem c1_counter_delta_witness :
    (0 : ℚ) ≤ exampleMeterReading.cumulativeEnergyTo -
      getPrior examplePriorState MeterType.solar kTo ∧
    UpdateEvent.addCounter "cumulative_power"
      [("meter", MeterType.string MeterType.solar), ("direction", kTo)]
      (exampleMeterReading.cumulativeEnergyTo -
        getPrior examplePriorState MeterType.solar kTo) ∈
      (updateMeter examplePriorState MeterType.solar exampleMeterReading).2 ∧
    exampleMeterReading.cumulativeEnergyFrom -
      getPrior examplePriorState MeterType.solar kFrom < 0 ∧
    (∀ q, UpdateEvent.addCounter "cumulative_power"
      [("meter", MeterType.string MeterType.solar), ("direction", kFrom)] q ∉
      (updateMeter examplePriorState MeterType.solar exampleMeterReading).2) ∧
    (∃ q, UpdateEvent.warnCounterDecreased MeterType.solar kFrom q ∈
      (updateMeter examplePriorState MeterType.solar exampleMeterReading).2) ∧
    getPrior (updateMeter examplePriorState MeterType.solar exampleMeterReading).1
      MeterType.solar kFrom = exampleMeterReading.cumulativeEnergyFrom := by
  have h := c1_counter_delta examplePriorState MeterType.solar exampleMeterReading
  have h1 : (0 : ℚ) ≤ exampleMeterReading.cumulativeEnergyTo -
      getPrior examplePriorState MeterType.solar kTo := by
    norm_num [exampleMeterReading, examplePriorState, getPrior]
  have h2 : exampleMeterReading.cumulativeEnergyFrom -
      getPrior examplePriorState MeterType.solar kFrom < 0 := by
    simp only [exampleMeterReading, examplePriorState, getPrior, kTo, kFrom,
      Prod.mk.injEq, String.reduceEq, and_false, and_true, if_false, if_true,
      reduceIte]
    norm_num
  have h3 : exampleMeterReading.cumulativeEnergyFrom -
      getPrior examplePriorState MeterType.solar kFrom < -epsilon := by
    simp only [exampleMeterReading, examplePriorState, getPrior, kTo, kFrom,
      Prod.mk.injEq, String.reduceEq, and_false, and_true, if_false, if_true,
      reduceIte, epsilon]
    norm_num
  exact ⟨h1, h.2.2.1 h1, h2, h.2.2.2.2.2.2.1 h2,
    h.2.2.2.2.2.2.2.mpr h3, h.2.1⟩

/-- C3 counterexample: the claim is false at its own example inputs.
`"143h54m32.539257895s"` does not decode to exactly 143h54m32s — the
nanoseconds group is added to the duration — and `"5.0s"` does not
decode to 5 seconds at all: it is rejected with a parse error. -/
theorem c3_counterexample :
    durationUnmarshalJSON "143h54m32.539257895s" ≠
      .ok ((143 * 3600 + 54 * 60 + 32) * 1000000000) ∧
    durationUnmarshalJSON "5.0s" ≠ .ok (5 * 1000000000) := by
  decide

/-- C3 amended: `"143h54m32.539257895s"` decodes to 143 hours plus 54
minutes plus 32 seconds plus 539257895 nanoseconds (each present named
group is parsed as an integer and the nanoseconds group is added as
nanoseconds); a string whose optional hours/minutes groups are absent,
such as `"5.0s"`, fails with the `strconv.ParseInt` invalid-syntax
error on the empty capture of the missing group (missing optional
groups contribute zero only on the no-match-at-all path). -/
theorem c3_amended_duration :
    durationUnmarshalJSON "143h54m32.539257895s" = .ok 518072539257895 ∧
    (143 * 3600 + 54 * 60 + 32) * 1000000000 + 539257895 = 518072539257895 ∧
    durationUnmarshalJSON "5.0s" =
      .error ("strconv.ParseInt: parsing " ++ goQuote "" ++ ": invalid syntax") := by
  refine ⟨by decide, by norm_num, by decide⟩

/-- C5 counterexample: a string matching none of the three layouts does
not always fail with an error naming the raw string.  For the input
`"x.1y"` the fractional-seconds strip rewrites the string to `"xy"`
before the layout loop, and the emitted error names `"xy"`; the raw
string `"x.1y"` does not occur in the message at all. -/
theorem c5_counterexample :
    timeUnmarshalJSON "x.1y" =
      .error ("no layout matched timestamp " ++ goQuote "xy") ∧
    strContainsSub ("no layout matched timestamp " ++ goQuote "xy") "x.1y" = false := by
  decide

/-- C5 amended: the timestamp with a fractional-seconds suffix decodes
to the same instant as the one without; the empty string decodes to
the zero sentinel without error; the three layouts are tried in order
with the first match winning; and a nonempty string matching none of
the three layouts fails with an error naming the string as it stands
after fractional-seconds stripping (which equals the raw string
whenever no fractional component was stripped). -/
theorem c5_amended_timestamps :
    (timeUnmarshalJSON "2019-07-01T10:00:00.123456789-07:00" =
       timeUnmarshalJSON "2019-07-01T10:00:00-07:00" ∧
     timeUnmarshalJSON "2019-07-01T10:00:00-07:00" = .ok 1562000400) ∧
    timeUnmarshalJSON "" = .ok goZeroTimeUnix ∧
    (∀ s p, s ≠ "" →
      parseLayoutColonOffset (stripFractionalSeconds s).data = some p →
      timeUnmarshalJSON s = .ok p.toUnix) ∧
    (∀ s p, s ≠ "" →
      parseLayoutColonOffset (stripFractionalSeconds s).data = none →
      parseLayoutSpaceOffset (stripFractionalSeconds s).data = some p →
      timeUnmarshalJSON s = .ok p.toUnix) ∧
    (∀ s p, s ≠ "" →
      parseLayoutColonOffset (stripFractionalSeconds s).data = none →
      parseLayoutSpaceOffset (stripFractionalSeconds s).data = none →
      parseLayoutLiteralZ (stripFractionalSeconds s).data = some p →
      timeUnmarshalJSON s = .ok p.toUnix) ∧
    (∀ s, s ≠ "" → tryLayouts (stripFractionalSeconds s).data = none →
      timeUnmarshalJSON s =
        .error ("no layout matched timestamp " ++
          goQuote (stripFractionalSeconds s))) := by
  refine ⟨⟨by decide, by decide⟩, by decide, ?_, ?_, ?_, ?_⟩
  · intro s p hne h1
    simp only [timeUnmarshalJSON, if_neg hne, tryLayouts, h1]
  · intro s p hne h1 h2
    simp only [timeUnmarshalJSON, if_neg hne, tryLayouts, h1, h2]
  · intro s p hne h1 h2 h3
    simp only [timeUnmarshalJSON, if_neg hne, tryLayouts, h1, h2, h3]
  · intro s hne h
    rw [tryLayouts] at h
    simp only [timeUnmarshalJSON, if_neg hne, tryLayouts]
    split at h
    · exact absurd h (by simp)
    · split at h
      · exact absurd h (by simp)
      · simp_all

/-- Witness for C5 at the concrete no-layout string `"bogus"` (left
unchanged by stripping) and the layout-two string with a space
separator and a numeric offset. -/
theorem c5_amended_timestamps_witness :
    ("bogus" : String) ≠ "" ∧
    tryLayouts (stripFractionalSeconds "bogus").data = none ∧
    timeUnmarshalJSON "bogus" =
      .error ("no layout matched timestamp " ++
        goQuote (stripFractionalSeconds "bogus")) ∧
    parseLayoutColonOffset (stripFractionalSeconds "2019-07-01 10:00:00 -0700").data = none ∧
    parseLayoutSpaceOffset (stripFractionalSeconds "2019-07-01 10:00:00 -0700").data =
      some ⟨2019, 7, 1, 10, 0, 0, -25200⟩ ∧
    timeUnmarshalJSON "2019-07-01 10:00:00 -0700" =
      .ok (DateTimeParts.toUnix ⟨2019, 7, 1, 10, 0, 0, -25200⟩) :=
  ⟨by decide, by decide,
   c5_amended_timestamps.2.2.2.2.2 "bogus" (by decide) (by decide),
   by decide, by decide,
   c5_amended_timestamps.2.2.2.1 "2019-07-01 10:00:00 -0700"
     ⟨2019, 7, 1, 10, 0, 0, -25200⟩ (by decide) (by decide) (by decide)⟩

end Pw
